import Mathlib

/-!
Verification of the parallel guardrail coordinator in
src/langgraph_demo.py.

The coordinator, parallel_guardrail_node, creates two asyncio tasks —
check_guardrail racing generate_llm_response — awaits the guardrail
first, cancels the llm task on rejection, and otherwise awaits the llm
result. We embed the coroutine as a function from the behaviours of the
two collaborator coroutines to the trace of scheduling events it emits
together with either the state it returns or the exception escaping it.
-/

/-- Exc models a Python exception observed by the coordinator: either
asyncio.CancelledError or any other error, carried with its message. -/
inductive Exc where
  | cancelled
  | error (msg : String)
  deriving DecidableEq, Repr

/-- TaskRes models how an awaited asyncio task resolves once it reaches
a terminal state: with a value, or by raising an exception. -/
inductive TaskRes (α : Type) where
  | ok (a : α)
  | exc (e : Exc)
  deriving DecidableEq, Repr

/-- GuardBeh is the observable behaviour of one invocation of the
check_guardrail coroutine: how many time units it runs before resolving,
and how it resolves. -/
structure GuardBeh where
  delay : Nat
  result : TaskRes Bool
  deriving DecidableEq, Repr

/-- ProdBeh is the observable behaviour of one invocation of the
generate_llm_response coroutine when it is allowed to finish: its
duration and its resolution. Its reaction to cancellation is fixed by
the source — it catches asyncio.CancelledError and re-raises — and is
encoded in the coordinator model: a task cancelled while still pending
terminates with the cancelled exception. -/
structure ProdBeh where
  delay : Nat
  result : TaskRes String
  deriving DecidableEq, Repr

/-- Message embeds langchain HumanMessage; only the content field is
ever read by this repository. -/
structure Message where
  content : String
  deriving DecidableEq, Repr

/-- State embeds the TypedDict State of langgraph_demo.py. -/
structure State where
  messages : List Message
  guardrail_passed : Bool
  error : Option String
  deriving DecidableEq, Repr

/-- Ev is one observable scheduling action of parallel_guardrail_node,
listed in program order in the trace the model produces. -/
inductive Ev where
  | startGuard (userMessage : String)
  | startProd
  | awaitGuard
  | guardDone
  | cancelProd
  | awaitProd
  | prodTerminal
  | retState
  | raiseExc
  deriving DecidableEq, Repr

/-- userMessageOf embeds the line
user_message = state["messages"][-1].content if state["messages"] else ""
of parallel_guardrail_node. -/
def userMessageOf (messages : List Message) : String :=
  match messages.getLast? with
  | some m => m.content
  | none => ""

/-- violation_detected is the hardcoded flag inside check_guardrail. -/
def violation_detected : Bool := true

/-- policyBlockMsg is the error string returned on the rejection branch
of parallel_guardrail_node. -/
def policyBlockMsg : String := "Request blocked due to content policy violation"

/-- llmResponseString is the fixed string generate_llm_response returns
when it completes. -/
def llmResponseString : String := "AI Response: Here is a detailed answer..."

/-- check_guardrailB is the behaviour of check_guardrail: it sleeps one
time unit and then returns False when violation_detected and True
otherwise. -/
def check_guardrailB (_user_message : String) : GuardBeh :=
  { delay := 1, result := .ok (if violation_detected then false else true) }

/-- generate_llm_responseB is the behaviour of generate_llm_response
when it runs to completion: it sleeps 30 time units and returns
llmResponseString. -/
def generate_llm_responseB (_messages : List Message) : ProdBeh :=
  { delay := 30, result := .ok llmResponseString }

/-- parallel_guardrail_node embeds the coroutine of the same name under
cooperative asyncio scheduling, generic over the behaviours of the two
collaborator coroutines it wraps in tasks. Mirroring the source: both
tasks are created first, the guardrail task is awaited, and on a False
verdict the llm task is cancelled and awaited inside a try that catches
only CancelledError, the blocked state being returned with the input
messages unchanged; on a True verdict the llm task is awaited and its
response appended as a new message. An exception from either await that
is not caught escapes the coroutine, which the model renders as an
Except.error result. The llm task counts as already finished at
cancellation time when its delay is at most the guardrail delay, since
the guardrail task is created first and wins ties; cancelling a
finished task is a no-op and awaiting it yields its stored result. -/
def parallel_guardrail_node (guard : String → GuardBeh)
    (producer : List Message → ProdBeh) (state : State) :
    List Ev × Except Exc State :=
  let user_message := userMessageOf state.messages
  let guardrail_task := guard user_message
  let llm_task := producer state.messages
  let pre : List Ev :=
    [.startGuard user_message, .startProd, .awaitGuard, .guardDone]
  match guardrail_task.result with
  | .exc e => (pre ++ [.raiseExc], .error e)
  | .ok guardrail_passed =>
    if !guardrail_passed then
      let prodTermRes : TaskRes String :=
        if llm_task.delay ≤ guardrail_task.delay then llm_task.result
        else .exc .cancelled
      match prodTermRes with
      | .ok _ =>
        (pre ++ [.cancelProd, .awaitProd, .prodTerminal, .retState],
         .ok { messages := state.messages, guardrail_passed := false,
               error := some policyBlockMsg })
      | .exc .cancelled =>
        (pre ++ [.cancelProd, .awaitProd, .prodTerminal, .retState],
         .ok { messages := state.messages, guardrail_passed := false,
               error := some policyBlockMsg })
      | .exc (.error e) =>
        (pre ++ [.cancelProd, .awaitProd, .prodTerminal, .raiseExc],
         .error (.error e))
    else
      match llm_task.result with
      | .ok llm_response =>
        (pre ++ [.awaitProd, .prodTerminal, .retState],
         .ok { messages := state.messages ++ [{ content := llm_response }],
               guardrail_passed := true, error := none })
      | .exc e =>
        (pre ++ [.awaitProd, .prodTerminal, .raiseExc], .error e)

/-- app_ainvoke embeds invoking the compiled one-node graph of
langgraph_demo.py (START → parallel_guardrail → END) with the shipped
collaborators: the single node runs and the channel values it returns
replace the state. -/
def app_ainvoke (s : State) : List Ev × Except Exc State :=
  parallel_guardrail_node check_guardrailB generate_llm_responseB s

/-- termBeforeRetAux scans a trace carrying whether a prodTerminal event
has been seen, and checks every return or escape of the coordinator is
preceded by the producer task reaching a terminal state. -/
def termBeforeRetAux : List Ev → Bool → Bool
  | [], _ => true
  | Ev.prodTerminal :: rest, _ => termBeforeRetAux rest true
  | Ev.retState :: rest, seen => seen && termBeforeRetAux rest seen
  | Ev.raiseExc :: rest, seen => seen && termBeforeRetAux rest seen
  | _ :: rest, seen => termBeforeRetAux rest seen

/-- termBeforeRet holds of traces in which the coordinator only returns
or escapes after the producer task has reached a terminal state. -/
def termBeforeRet (tr : List Ev) : Bool := termBeforeRetAux tr false

/-- getLastOfAppendSingle: appending one message makes it the last. -/
theorem getLastOfAppendSingle (l : List Message) (m : Message) :
    (l ++ [m]).getLast? = some m := by
  simp

/-- C1: whenever the guardrail resolves to False (Rejected) and the llm
coroutine does not itself raise a non-cancellation error,
parallel_guardrail_node returns the blocked state — guardrail_passed is
False, the error field is the policy message, and messages are exactly
the input messages — for every pair of delays, so the producer artifact
is never observable after a rejection whether the producer finished
before, at, or after the moment the rejection was decided, and the
outcome is never the completed one. -/
theorem C1_no_leakage (guard : String → GuardBeh)
    (producer : List Message → ProdBeh) (s : State)
    (hg : (guard (userMessageOf s.messages)).result = .ok false)
    (hp : ∀ e, (producer s.messages).result ≠ .exc (.error e)) :
    (parallel_guardrail_node guard producer s).2 =
      .ok { messages := s.messages, guardrail_passed := false,
            error := some policyBlockMsg } := by
  unfold parallel_guardrail_node
  simp only [hg, Bool.not_false, if_true]
  split
  · rfl
  · rfl
  · rename_i e heq
    split at heq
    · exact absurd heq (hp e)
    · exact absurd heq (by simp)

/-- C1 witness at the shipped behaviours and a concrete input state. -/
theorem C1_no_leakage_witness :
    (parallel_guardrail_node check_guardrailB generate_llm_responseB
        { messages := [{ content := "hi" }], guardrail_passed := false,
          error := none }).2 =
      .ok { messages := [{ content := "hi" }], guardrail_passed := false,
            error := some policyBlockMsg } :=
  C1_no_leakage check_guardrailB generate_llm_responseB
    { messages := [{ content := "hi" }], guardrail_passed := false, error := none }
    (by rfl) (by intro e h; simp [generate_llm_responseB] at h)

/-- C2: whenever the guardrail resolves to True (Accepted) and the llm
coroutine completes with a response, parallel_guardrail_node returns the
completed state: guardrail_passed is True, error is None, and the
messages are the input messages extended by one message whose content is
exactly the producer response, which is then the last message. -/
theorem C2_pass_through (guard : String → GuardBeh)
    (producer : List Message → ProdBeh) (s : State) (a : String)
    (hg : (guard (userMessageOf s.messages)).result = .ok true)
    (hp : (producer s.messages).result = .ok a) :
    (parallel_guardrail_node guard producer s).2 =
      .ok { messages := s.messages ++ [{ content := a }],
            guardrail_passed := true, error := none } ∧
    (s.messages ++ [({ content := a } : Message)]).getLast? =
      some { content := a } := by
  refine ⟨?_, getLastOfAppendSingle s.messages { content := a }⟩
  unfold parallel_guardrail_node
  simp only [hg, hp, Bool.not_true, if_false]
  rfl

/-- C2 witness with an accepting guard behaviour and the shipped
producer behaviour at a concrete input state. -/
theorem C2_pass_through_witness :
    (parallel_guardrail_node (fun _ => { delay := 1, result := .ok true })
        generate_llm_responseB
        { messages := [{ content := "hi" }], guardrail_passed := false,
          error := none }).2 =
      .ok { messages := [{ content := "hi" }, { content := llmResponseString }],
            guardrail_passed := true, error := none } ∧
    ([({ content := "hi" } : Message)] ++ [({ content := llmResponseString } : Message)]).getLast? =
      some { content := llmResponseString } :=
  C2_pass_through (fun _ => { delay := 1, result := .ok true })
    generate_llm_responseB
    { messages := [{ content := "hi" }], guardrail_passed := false, error := none }
    llmResponseString (by rfl) (by rfl)

/-- C3: whenever the guardrail resolves to False, the trace of
parallel_guardrail_node contains the cancellation signal to the llm
task, and the coordinator neither returns nor escapes before the llm
task has reached a terminal state. -/
theorem C3_cancellation_confirmed (guard : String → GuardBeh)
    (producer : List Message → ProdBeh) (s : State)
    (hg : (guard (userMessageOf s.messages)).result = .ok false) :
    Ev.cancelProd ∈ (parallel_guardrail_node guard producer s).1 ∧
    termBeforeRet (parallel_guardrail_node guard producer s).1 = true := by
  unfold parallel_guardrail_node
  simp only [hg, Bool.not_false, if_true]
  split
  · exact ⟨by simp, by rfl⟩
  · exact ⟨by simp, by rfl⟩
  · exact ⟨by simp, by rfl⟩

/-- C3 witness at the shipped behaviours and a concrete input state. -/
theorem C3_cancellation_confirmed_witness :
    Ev.cancelProd ∈ (parallel_guardrail_node check_guardrailB
        generate_llm_responseB
        { messages := [{ content := "hi" }], guardrail_passed := false,
          error := none }).1 ∧
    termBeforeRet (parallel_guardrail_node check_guardrailB
        generate_llm_responseB
        { messages := [{ content := "hi" }], guardrail_passed := false,
          error := none }).1 = true :=
  C3_cancellation_confirmed check_guardrailB generate_llm_responseB
    { messages := [{ content := "hi" }], guardrail_passed := false, error := none }
    (by rfl)

/-- C4 counterexample: with a guard behaviour that raises an internal
error, parallel_guardrail_node lets the exception escape uncaught — the
result is an escaped exception, not a returned state — and the trace
shows no cancellation signal and no await of the llm task, so the
producer is left running; this contradicts the claim that the
coordinator catches the guard failure, returns a GuardFailed outcome
and cancels the producer. -/
theorem C4_counterexample :
    (parallel_guardrail_node
        (fun _ => { delay := 1, result := .exc (.error "guard boom") })
        generate_llm_responseB
        { messages := [], guardrail_passed := false, error := none }) =
      ([.startGuard "", .startProd, .awaitGuard, .guardDone, .raiseExc],
       .error (.error "guard boom")) ∧
    Ev.cancelProd ∉
      (parallel_guardrail_node
        (fun _ => { delay := 1, result := .exc (.error "guard boom") })
        generate_llm_responseB
        { messages := [], guardrail_passed := false, error := none }).1 ∧
    Ev.awaitProd ∉
      (parallel_guardrail_node
        (fun _ => { delay := 1, result := .exc (.error "guard boom") })
        generate_llm_responseB
        { messages := [], guardrail_passed := false, error := none }).1 := by
  constructor
  · rfl
  · constructor
    · decide
    · decide

/-- C4 amended: whenever the guard behaviour raises an error, the
exception escapes parallel_guardrail_node uncaught, no cancellation
signal is ever issued to the llm task, and the llm task is never
awaited — the producer is abandoned, still running unvalidated, and no
GuardFailed outcome exists. -/
theorem C4_guard_error_escapes (guard : String → GuardBeh)
    (producer : List Message → ProdBeh) (s : State) (e : String)
    (hg : (guard (userMessageOf s.messages)).result = .exc (.error e)) :
    (parallel_guardrail_node guard producer s).2 = .error (.error e) ∧
    Ev.cancelProd ∉ (parallel_guardrail_node guard producer s).1 ∧
    Ev.awaitProd ∉ (parallel_guardrail_node guard producer s).1 := by
  refine ⟨?_, ?_, ?_⟩ <;> (unfold parallel_guardrail_node; simp [hg])

/-- C4 amended witness at a concrete raising guard and input state. -/
theorem C4_guard_error_escapes_witness :
    (parallel_guardrail_node
        (fun _ => { delay := 1, result := .exc (.error "boom") })
        generate_llm_responseB
        { messages := [{ content := "hi" }], guardrail_passed := false,
          error := none }).2 = .error (.error "boom") ∧
    Ev.cancelProd ∉
      (parallel_guardrail_node
        (fun _ => { delay := 1, result := .exc (.error "boom") })
        generate_llm_responseB
        { messages := [{ content := "hi" }], guardrail_passed := false,
          error := none }).1 ∧
    Ev.awaitProd ∉
      (parallel_guardrail_node
        (fun _ => { delay := 1, result := .exc (.error "boom") })
        generate_llm_responseB
        { messages := [{ content := "hi" }], guardrail_passed := false,
          error := none }).1 :=
  C4_guard_error_escapes
    (fun _ => { delay := 1, result := .exc (.error "boom") })
    generate_llm_responseB
    { messages := [{ content := "hi" }], guardrail_passed := false, error := none }
    "boom" (by rfl)

/-- C5 counterexample: with an accepting guard and a producer behaviour
that raises after acceptance, parallel_guardrail_node lets the producer
exception escape uncaught — the result is an escaped exception, not any
returned outcome state — contradicting the claim that the failure is
captured locally and mapped to a ProducerFailed outcome. -/
theorem C5_counterexample :
    (parallel_guardrail_node (fun _ => { delay := 1, result := .ok true })
        (fun _ => { delay := 30, result := .exc (.error "llm boom") })
        { messages := [], guardrail_passed := false, error := none }).2 =
      .error (.error "llm boom") := by
  rfl

/-- C5 amended: whenever the guard behaviour resolves to True and the
producer behaviour raises an error, the exception escapes
parallel_guardrail_node uncaught instead of being mapped into a
returned outcome value. -/
theorem C5_producer_error_escapes (guard : String → GuardBeh)
    (producer : List Message → ProdBeh) (s : State) (e : String)
    (hg : (guard (userMessageOf s.messages)).result = .ok true)
    (hp : (producer s.messages).result = .exc (.error e)) :
    (parallel_guardrail_node guard producer s).2 = .error (.error e) := by
  unfold parallel_guardrail_node
  simp only [hg, hp]
  rfl

/-- C5 amended witness at concrete behaviours and input state. -/
theorem C5_producer_error_escapes_witness :
    (parallel_guardrail_node (fun _ => { delay := 1, result := .ok true })
        (fun _ => { delay := 30, result := .exc (.error "fail") })
        { messages := [{ content := "hi" }], guardrail_passed := false,
          error := none }).2 = .error (.error "fail") :=
  C5_producer_error_escapes (fun _ => { delay := 1, result := .ok true })
    (fun _ => { delay := 30, result := .exc (.error "fail") })
    { messages := [{ content := "hi" }], guardrail_passed := false, error := none }
    "fail" (by rfl) (by rfl)

/-- C6 counterexample: no timeout machinery exists — a guard taking
1000000 time units, exceeding any would-be guard_timeout, still has its
verdict awaited and honoured: the outcome is the ordinary completed
state, never a GuardFailed timeout, and no cancellation signal is ever
sent to the producer. -/
theorem C6_counterexample :
    (parallel_guardrail_node
        (fun _ => { delay := 1000000, result := .ok true })
        generate_llm_responseB
        { messages := [], guardrail_passed := false, error := none }) =
      ([.startGuard "", .startProd, .awaitGuard, .guardDone, .awaitProd,
        .prodTerminal, .retState],
       .ok { messages := [{ content := llmResponseString }],
             guardrail_passed := true, error := none }) ∧
    Ev.cancelProd ∉
      (parallel_guardrail_node
        (fun _ => { delay := 1000000, result := .ok true })
        generate_llm_responseB
        { messages := [], guardrail_passed := false, error := none }).1 := by
  refine ⟨rfl, ?_⟩
  decide

/-- C6 amended: parallel_guardrail_node accepts no options and enforces
no timeouts: whenever the producer behaviour resolves with a value, the
returned result is completely independent of both the guard delay and
the producer delay, so no latency, however large, can produce a timeout
outcome. -/
theorem C6_no_timeouts (rg : TaskRes Bool) (a : String) (s : State)
    (dg dp dg2 dp2 : Nat) :
    (parallel_guardrail_node (fun _ => { delay := dg, result := rg })
        (fun _ => { delay := dp, result := .ok a }) s).2 =
    (parallel_guardrail_node (fun _ => { delay := dg2, result := rg })
        (fun _ => { delay := dp2, result := .ok a }) s).2 := by
  unfold parallel_guardrail_node
  cases rg with
  | exc e => rfl
  | ok b =>
    cases b with
    | true => rfl
    | false =>
      simp only [Bool.not_false, if_true]
      by_cases h1 : dp ≤ dg <;> by_cases h2 : dp2 ≤ dg2 <;>
        simp [h1, h2]

/-- C7: in every invocation, whatever the collaborator behaviours, the
trace begins with the creation of the guardrail task and of the llm
task, in that program order with nothing between them, followed by the
single suspension on the guardrail task and the observation of its
result; in particular the llm task is never awaited or polled before
the guardrail verdict is observed. -/
theorem C7_concurrent_launch (guard : String → GuardBeh)
    (producer : List Message → ProdBeh) (s : State) :
    ∃ rest, (parallel_guardrail_node guard producer s).1 =
      Ev.startGuard (userMessageOf s.messages) :: Ev.startProd ::
        Ev.awaitGuard :: Ev.guardDone :: rest := by
  cases hg : (guard (userMessageOf s.messages)).result with
  | exc e => exact ⟨[Ev.raiseExc], by simp [parallel_guardrail_node, hg]⟩
  | ok b =>
    cases b with
    | true =>
      cases hp : (producer s.messages).result with
      | ok a =>
        exact ⟨[Ev.awaitProd, Ev.prodTerminal, Ev.retState],
          by simp [parallel_guardrail_node, hg, hp]⟩
      | exc e =>
        exact ⟨[Ev.awaitProd, Ev.prodTerminal, Ev.raiseExc],
          by simp [parallel_guardrail_node, hg, hp]⟩
    | false =>
      by_cases hd : (producer s.messages).delay ≤
          (guard (userMessageOf s.messages)).delay
      · cases hp : (producer s.messages).result with
        | ok a =>
          exact ⟨[Ev.cancelProd, Ev.awaitProd, Ev.prodTerminal, Ev.retState],
            by simp [parallel_guardrail_node, hg, hp, hd]⟩
        | exc e =>
          cases e with
          | cancelled =>
            exact ⟨[Ev.cancelProd, Ev.awaitProd, Ev.prodTerminal, Ev.retState],
              by simp [parallel_guardrail_node, hg, hp, hd]⟩
          | error m =>
            exact ⟨[Ev.cancelProd, Ev.awaitProd, Ev.prodTerminal, Ev.raiseExc],
              by simp [parallel_guardrail_node, hg, hp, hd]⟩
      · exact ⟨[Ev.cancelProd, Ev.awaitProd, Ev.prodTerminal, Ev.retState],
          by simp [parallel_guardrail_node, hg, hd]⟩

/-- C8: invoked on a state whose messages list is empty,
parallel_guardrail_node does not fail on indexing: the user message is
the empty string, both tasks are still launched and raced, and with the
shipped behaviours the node returns the well-formed blocked state. -/
theorem C8_empty_messages (s : State) (h : s.messages = []) :
    parallel_guardrail_node check_guardrailB generate_llm_responseB s =
      ([Ev.startGuard "", Ev.startProd, Ev.awaitGuard, Ev.guardDone,
        Ev.cancelProd, Ev.awaitProd, Ev.prodTerminal, Ev.retState],
       .ok { messages := [], guardrail_passed := false,
             error := some policyBlockMsg }) := by
  simp only [parallel_guardrail_node, h]
  rfl

/-- C8 witness at the concrete empty initial state. -/
theorem C8_empty_messages_witness :
    parallel_guardrail_node check_guardrailB generate_llm_responseB
      { messages := [], guardrail_passed := false, error := none } =
      ([Ev.startGuard "", Ev.startProd, Ev.awaitGuard, Ev.guardDone,
        Ev.cancelProd, Ev.awaitProd, Ev.prodTerminal, Ev.retState],
       .ok { messages := [], guardrail_passed := false,
             error := some policyBlockMsg }) :=
  C8_empty_messages
    { messages := [], guardrail_passed := false, error := none } (by rfl)

/-- C9: the input messages list is never mutated: whenever
parallel_guardrail_node returns a state, either the guardrail did not
pass and the returned messages are exactly the input messages, or the
guardrail passed and the returned messages are the input messages
extended by exactly one message carrying the producer result; no other
shape of the messages field exists. -/
theorem C9_messages_frame (guard : String → GuardBeh)
    (producer : List Message → ProdBeh) (s s' : State)
    (h : (parallel_guardrail_node guard producer s).2 = .ok s') :
    (s'.guardrail_passed = false ∧ s'.messages = s.messages) ∨
    (s'.guardrail_passed = true ∧ ∃ a, (producer s.messages).result = .ok a ∧
      s'.messages = s.messages ++ [{ content := a }]) := by
  cases hg : (guard (userMessageOf s.messages)).result with
  | exc e => simp [parallel_guardrail_node, hg] at h
  | ok b =>
    cases b with
    | true =>
      cases hp : (producer s.messages).result with
      | ok a =>
        simp [parallel_guardrail_node, hg, hp] at h
        subst h
        right
        exact ⟨rfl, a, rfl, rfl⟩
      | exc e => simp [parallel_guardrail_node, hg, hp] at h
    | false =>
      by_cases hd : (producer s.messages).delay ≤
          (guard (userMessageOf s.messages)).delay
      · cases hp : (producer s.messages).result with
        | ok a =>
          simp [parallel_guardrail_node, hg, hp, hd] at h
          subst h
          left
          exact ⟨rfl, rfl⟩
        | exc e =>
          cases e with
          | cancelled =>
            simp [parallel_guardrail_node, hg, hp, hd] at h
            subst h
            left
            exact ⟨rfl, rfl⟩
          | error m => simp [parallel_guardrail_node, hg, hp, hd] at h
      · simp [parallel_guardrail_node, hg, hd] at h
        subst h
        left
        exact ⟨rfl, rfl⟩

/-- C9 witness at the shipped behaviours and a concrete input state. -/
theorem C9_messages_frame_witness :
    (({ messages := [{ content := "hi" }], guardrail_passed := false,
        error := some policyBlockMsg } : State).guardrail_passed = false ∧
     ({ messages := [{ content := "hi" }], guardrail_passed := false,
        error := some policyBlockMsg } : State).messages =
       ({ messages := [{ content := "hi" }], guardrail_passed := false,
          error := none } : State).messages) ∨
    (({ messages := [{ content := "hi" }], guardrail_passed := false,
        error := some policyBlockMsg } : State).guardrail_passed = true ∧
     ∃ a, (generate_llm_responseB
        ({ messages := [{ content := "hi" }], guardrail_passed := false,
           error := none } : State).messages).result = .ok a ∧
       ({ messages := [{ content := "hi" }], guardrail_passed := false,
          error := some policyBlockMsg } : State).messages =
         ({ messages := [{ content := "hi" }], guardrail_passed := false,
            error := none } : State).messages ++ [{ content := a }]) :=
  C9_messages_frame check_guardrailB generate_llm_responseB
    { messages := [{ content := "hi" }], guardrail_passed := false, error := none }
    { messages := [{ content := "hi" }], guardrail_passed := false,
      error := some policyBlockMsg }
    (by rfl)

/-- C10: check_guardrail resolves to False for every input string, since
the violation flag is hardcoded to True, and therefore every invocation
of the compiled graph takes the rejection branch and returns a state
with guardrail_passed False and the content policy error message. -/
theorem C10_always_rejected :
    (∀ m : String, (check_guardrailB m).result = .ok false) ∧
    ∀ s : State, (app_ainvoke s).2 =
      .ok { messages := s.messages, guardrail_passed := false,
            error := some policyBlockMsg } := by
  constructor
  · intro m
    rfl
  · intro s
    rfl
